import Mathlib

/-!
Verification of the AITemplateEditor authentication middleware, admin query
routes and browser API gateway, as shallow Lean embeddings of the source.

Modules embedded:
- server/middleware/auth.js : the `auth` Express middleware (Session Guard);
- the admin router (GET /admin/dashboard, /admin/users, /admin/templates,
  POST /admin/templates);
- the browser ApiService (request, logout, isAuthenticated).

External collaborators (jsonwebtoken verification, the Mongo store, fetch,
atob/JSON.parse) are modelled as function parameters returning Option, so
that every code path of the repository itself is represented faithfully.
-/

/-- JSON rejection payload sent by the middleware: HTTP status plus the
body fields success, message and the optional code. -/
structure AuthResponse where
  status : Nat
  success : Bool
  message : String
  code : Option String
deriving DecidableEq

/-- Outcome of jwt.verify: a decoded payload carrying userId and role, a
TokenExpiredError, or any other verification error. -/
inductive VerifyResult where
  | ok (userId : String) (role : String)
  | expired
  | invalid
deriving DecidableEq

/-- The slice of the account document the middleware inspects. -/
structure UserRec where
  id : String
  isActive : Bool
deriving DecidableEq

/-- Result of the middleware: a rejection response, or the principal
attached to the request (req.user = userId, role, userDoc). -/
inductive AuthOutcome where
  | reject (resp : AuthResponse)
  | accept (userId : String) (role : String) (userDoc : UserRec)
deriving DecidableEq

/-- Character-list check that the second list begins with the first. -/
def hasLeading : List Char → List Char → Bool
  | [], _ => true
  | _ :: _, [] => false
  | a :: as, b :: bs => a == b && hasLeading as bs

/-- Embedding of authHeader.startsWith used at auth.js line 8. -/
def strStartsWith (s pat : String) : Bool := hasLeading pat.data s.data

/-- Token extraction, auth.js line 8: strip the leading Bearer marker when
present, otherwise fall back to the raw header value. -/
def extractToken (authHeader : Option String) : Option String :=
  match authHeader with
  | none => none
  | some h =>
    if strStartsWith h "Bearer " then some (String.mk (h.data.drop 7)) else some h

/-- Rejection sent when no token is present (auth.js lines 10-15). -/
def noTokenResp : AuthResponse :=
  ⟨401, false, "Access denied. No token provided.", none⟩

/-- Rejection sent on TokenExpiredError (auth.js lines 22-27). -/
def expiredResp : AuthResponse :=
  ⟨401, false, "Token expired. Please log in again.", some "TOKEN_EXPIRED"⟩

/-- Rejection sent on any other verification error (auth.js lines 29-33). -/
def invalidResp : AuthResponse :=
  ⟨401, false, "Invalid token.", some "INVALID_TOKEN"⟩

/-- Rejection sent when no account matches the decoded id (lines 38-44). -/
def userNotFoundResp : AuthResponse :=
  ⟨401, false, "User not found.", some "USER_NOT_FOUND"⟩

/-- Rejection sent when the account is deactivated (lines 46-52). -/
def deactivatedResp : AuthResponse :=
  ⟨401, false, "Account is deactivated.", some "ACCOUNT_DEACTIVATED"⟩

/-- Middleware behaviour from jwt.verify onward (auth.js lines 17-61),
given a nonempty token. The store read User.findById is modelled as a
total lookup returning Option; the Bool in the result records whether the
lookup was reached. -/
def authCheck (token : String) (verify : String → VerifyResult)
    (findById : String → Option UserRec) : AuthOutcome × Bool :=
  match verify token with
  | .expired => (.reject expiredResp, false)
  | .invalid => (.reject invalidResp, false)
  | .ok userId role =>
    match findById userId with
    | none => (.reject userNotFoundResp, true)
    | some user =>
      if !user.isActive then (.reject deactivatedResp, true)
      else (.accept userId role user, true)

/-- The auth middleware (auth.js lines 4-61): extract the token, reject
when it is absent or empty, then verify and load the account. -/
def auth (authHeader : Option String) (verify : String → VerifyResult)
    (findById : String → Option UserRec) : AuthOutcome × Bool :=
  match extractToken authHeader with
  | none => (.reject noTokenResp, false)
  | some t => if t = "" then (.reject noTokenResp, false) else authCheck t verify findById

/-!
Browser ApiService (src/services/api.ts): request, logout, isAuthenticated.
-/

/-- Client-side credential state: the in-memory token field of ApiService
and the authToken entry of localStorage. -/
structure ClientState where
  token : Option String
  storage : Option String
deriving DecidableEq

/-- ApiService.logout: null the token field and remove the authToken key. -/
def logoutClient (st : ClientState) : ClientState :=
  { st with token := none, storage := none }

/-- Parsed JSON body of a backend response, restricted to the fields the
gateway inspects: success, message and code. -/
structure RespBody where
  success : Option Bool
  message : Option String
  code : Option String
deriving DecidableEq

/-- A backend HTTP response as the gateway sees it: status code, whether
the content-type names application/json, and the parsed body. -/
structure BackendResponse where
  status : Nat
  contentTypeJson : Bool
  body : RespBody
deriving DecidableEq

/-- Result of ApiService.request: the returned data on success, or the
message of the Error it throws. -/
inductive RequestResult where
  | success (body : RespBody)
  | failure (message : String)
deriving DecidableEq

/-- The fetch response.ok flag: status in the range 200-299. -/
def okStatus (s : Nat) : Bool := decide (200 ≤ s) && decide (s < 300)

/-- JS disjunction data.message with a default: the default is taken when
message is absent or the empty string, both falsy. -/
def strFalsyOr (m : Option String) (d : String) : String :=
  match m with
  | none => d
  | some s => if s = "" then d else s

/-- Response handling of ApiService.request (api.ts): non-JSON content
type throws a transport error; a 401 clears the stored token via logout
and then throws, distinguishing the TOKEN_EXPIRED code; other non-ok
statuses throw with the body message; a body with success false throws;
otherwise the data is returned. The state paired with the result is the
credential state after the call. -/
def requestHandle (st : ClientState) (resp : BackendResponse) :
    ClientState × RequestResult :=
  if !resp.contentTypeJson then
    (st, .failure "Server returned invalid response format")
  else if !okStatus resp.status then
    if resp.status = 401 then
      let cleared := logoutClient st
      if resp.body.code = some "TOKEN_EXPIRED" then
        (cleared, .failure "Your session has expired. Please log in again.")
      else
        (cleared, .failure "Authentication failed. Please log in again.")
    else
      (st, .failure (strFalsyOr resp.body.message ("HTTP error! status: " ++ toString resp.status)))
  else if resp.body.success = some false then
    (st, .failure (strFalsyOr resp.body.message "Operation failed"))
  else
    (st, .success resp.body)

/-- JS token.split at the dot character, accumulator based. -/
def splitDotAux (acc : List Char) : List Char → List (List Char)
  | [] => [acc.reverse]
  | c :: cs => if c = '.' then acc.reverse :: splitDotAux [] cs else splitDotAux (c :: acc) cs

/-- Index 1 of token.split, the JWT payload segment; none models the JS
undefined when the token has no dot. -/
def payloadSegment (t : String) : Option String :=
  match splitDotAux [] t.data with
  | _ :: seg :: _ => some (String.mk seg)
  | _ => none

/-- ApiService.isAuthenticated (api.ts lines 223-233). The composition
atob then JSON.parse then reading the numeric exp claim is the browser
runtime, modelled by the decodeExp parameter; none covers every throwing
or non-numeric outcome, which the try/catch of the source converts to
false (a missing exp yields NaN comparisons, also false). -/
def isAuthenticated (decodeExp : String → Option Int) (token : Option String)
    (now : Int) : Bool :=
  match token with
  | none => false
  | some t =>
    if t = "" then false
    else
      match payloadSegment t with
      | none => false
      | some seg =>
        match decodeExp seg with
        | none => false
        | some exp => decide (exp * 1000 > now)

/-!
Admin router: template and user queries, dashboard, template creation.
-/

/-- The template document fields the admin routes read or write. -/
structure Template where
  id : Nat
  name : String
  subject : String
  category : String
  isPublic : Bool
  isPremium : Bool
  isActive : Bool
  createdBy : String
  createdAt : Nat
deriving DecidableEq

/-- The account document fields the admin user listing reads. -/
structure UserDoc where
  id : String
  name : String
  email : String
  isActive : Bool
  createdAt : Nat
deriving DecidableEq

/-- Pagination metadata of the admin list endpoints. -/
structure Pagination where
  current : Nat
  pages : Nat
  total : Nat
deriving DecidableEq

/-- Query-string parameters of GET /admin/templates. page and limit are
none when the client omits them; isPublic arrives as a raw string. -/
structure TemplateQueryParams where
  page : Option Nat
  limit : Option Nat
  search : Option String
  category : Option String
  isPublic : Option String
deriving DecidableEq

/-- Query-string parameters of GET /admin/users. -/
structure UserQueryParams where
  page : Option Nat
  limit : Option Nat
  search : Option String
deriving DecidableEq

/-- Destructuring default page = 1 of the route handlers. -/
def defaultPage (p : Option Nat) : Nat := p.getD 1

/-- Destructuring default limit = 20 of the route handlers; the supplied
value is used unchanged when present. -/
def effectiveLimit (l : Option Nat) : Nat := l.getD 20

/-- Lower-cased character list of a string, for the case-insensitive
regex filters of the admin queries. -/
def lowerStr (s : String) : List Char := s.data.map Char.toLower

/-- Substring occurrence over character lists. -/
def hasSub (needle : List Char) : List Char → Bool
  | [] => needle.isEmpty
  | c :: rest => hasLeading needle (c :: rest) || hasSub needle rest

/-- Case-insensitive substring match, embedding the unanchored regex
filter with option i used for search terms. -/
def containsCI (hay sub : String) : Bool := hasSub (lowerStr sub) (lowerStr hay)

/-- Mongo query built by GET /admin/templates (router lines 507-524), as
a predicate: isActive true always; a truthy search filters name or
subject case-insensitively; a truthy category other than all filters by
category; a present isPublic string filters by equality with true. -/
def templateMatches (p : TemplateQueryParams) (t : Template) : Bool :=
  t.isActive &&
  (match p.search with
   | none => true
   | some s => if s = "" then true else (containsCI t.name s || containsCI t.subject s)) &&
  (match p.category with
   | none => true
   | some c => if c = "" then true else if c = "all" then true else t.category == c) &&
  (match p.isPublic with
   | none => true
   | some v => t.isPublic == (v == "true"))

/-- Mongo query built by GET /admin/users (router lines 474-480). -/
def userMatches (p : UserQueryParams) (u : UserDoc) : Bool :=
  u.isActive &&
  (match p.search with
   | none => true
   | some s => if s = "" then true else (containsCI u.name s || containsCI u.email s))

/-- Insertion of one element into a list sorted descending by key. -/
def insertByDesc (key : α → Nat) (x : α) : List α → List α
  | [] => [x]
  | y :: ys => if key x ≤ key y then y :: insertByDesc key x ys else x :: y :: ys

/-- Sort descending by key, embedding the createdAt minus one sort of the
admin queries; the claims depend only on the element membership of the
result, which any sort preserves. -/
def sortByDesc (key : α → Nat) : List α → List α
  | [] => []
  | y :: ys => insertByDesc key y (sortByDesc key ys)

/-- Mongoose skip and limit applied to a sorted result: skip is the page
offset (page - 1) * limit; a limit of 0 imposes no limit, as in the
store. -/
def applyPage (page limit : Nat) (l : List α) : List α :=
  let skipped := l.drop ((page - 1) * limit)
  if limit = 0 then skipped else skipped.take limit

/-- Math.ceil of total over limit for a positive limit, as the routes
compute the pages field; written with natural division so that the
definition evaluates. -/
def mathCeilDiv (total limit : Nat) : Nat := (total + limit - 1) / limit

/-- GET /admin/templates (router lines 505-542): filter by the built
query, sort by createdAt descending, skip and limit, and report
pagination metadata over the full match count. -/
def adminTemplatesHandler (store : List Template) (p : TemplateQueryParams) :
    List Template × Pagination :=
  let page := defaultPage p.page
  let limit := effectiveLimit p.limit
  let matched := store.filter (fun t => templateMatches p t)
  let total := matched.length
  (applyPage page limit (sortByDesc (fun t => t.createdAt) matched),
   { current := page, pages := mathCeilDiv total limit, total := total })

/-- GET /admin/users (router lines 470-497), same shape as the template
listing. -/
def adminUsersHandler (store : List UserDoc) (p : UserQueryParams) :
    List UserDoc × Pagination :=
  let page := defaultPage p.page
  let limit := effectiveLimit p.limit
  let matched := store.filter (fun u => userMatches p u)
  let total := matched.length
  (applyPage page limit (sortByDesc (fun u => u.createdAt) matched),
   { current := page, pages := mathCeilDiv total limit, total := total })

/-- The recentTemplates component of GET /admin/dashboard (router lines
446-450): active templates, newest first, first ten. -/
def dashboardRecentTemplates (store : List Template) : List Template :=
  (sortByDesc (fun t => t.createdAt) (store.filter (fun t => t.isActive))).take 10

/-- Request body of POST /admin/templates; isPublic and isPremium are
none when absent from the JSON body. -/
structure AdminCreateBody where
  name : String
  subject : String
  category : String
  isPublic : Option Bool
  isPremium : Option Bool
deriving DecidableEq

/-- Template data assembled and stored by POST /admin/templates (router
lines 552-557): the body is spread first, then createdBy, a literal
isPublic true and the defaulted isPremium overwrite, so a body value for
isPublic is discarded. -/
structure AdminTemplateData where
  name : String
  subject : String
  category : String
  createdBy : String
  isPublic : Bool
  isPremium : Bool
deriving DecidableEq

/-- POST /admin/templates data construction. -/
def createAdminTemplateData (body : AdminCreateBody) (callerId : String) :
    AdminTemplateData :=
  { name := body.name
    subject := body.subject
    category := body.category
    createdBy := callerId
    isPublic := true
    isPremium := body.isPremium.getD false }

/-- Sample active template used by concrete instantiations. -/
def tActive : Template :=
  ⟨1, "Welcome", "Hello there", "general", true, false, true, "u1", 5⟩

/-!
Helper lemmas about the embedded operations.
-/

lemma mem_insertByDesc (key : α → Nat) (x : α) (l : List α) (y : α) :
    y ∈ insertByDesc key x l ↔ y = x ∨ y ∈ l := by
  induction l with
  | nil => simp [insertByDesc]
  | cons z zs ih =>
    unfold insertByDesc
    by_cases h : key x ≤ key z
    · simp only [if_pos h, List.mem_cons, ih]
      tauto
    · simp only [if_neg h, List.mem_cons]

lemma mem_sortByDesc (key : α → Nat) (l : List α) (y : α) :
    y ∈ sortByDesc key l ↔ y ∈ l := by
  induction l with
  | nil => simp [sortByDesc]
  | cons z zs ih => simp [sortByDesc, mem_insertByDesc, ih]

lemma length_insertByDesc (key : α → Nat) (x : α) (l : List α) :
    (insertByDesc key x l).length = l.length + 1 := by
  induction l with
  | nil => rfl
  | cons z zs ih =>
    unfold insertByDesc
    by_cases h : key x ≤ key z <;> simp [h, ih]

lemma length_sortByDesc (key : α → Nat) (l : List α) :
    (sortByDesc key l).length = l.length := by
  induction l with
  | nil => rfl
  | cons z zs ih => simp [sortByDesc, length_insertByDesc, ih]

lemma mem_of_applyPage {page limit : Nat} {l : List α} {y : α}
    (h : y ∈ applyPage page limit l) : y ∈ l := by
  unfold applyPage at h
  by_cases hl : limit = 0
  · simp only [if_pos hl] at h
    exact List.drop_subset _ _ h
  · simp only [if_neg hl] at h
    exact List.drop_subset _ _ (List.take_subset _ _ h)

lemma isActive_of_templateMatches (p : TemplateQueryParams) (t : Template)
    (h : templateMatches p t = true) : t.isActive = true := by
  unfold templateMatches at h
  simp only [Bool.and_eq_true] at h
  tauto

lemma isActive_of_userMatches (p : UserQueryParams) (u : UserDoc)
    (h : userMatches p u = true) : u.isActive = true := by
  unfold userMatches at h
  simp only [Bool.and_eq_true] at h
  tauto

lemma mathCeilDiv_eq_ceil (a b : Nat) (hb : 0 < b) :
    mathCeilDiv a b = ⌈(a : ℚ) / (b : ℚ)⌉₊ := by
  have hbq : (0 : ℚ) < (b : ℚ) := by exact_mod_cast hb
  unfold mathCeilDiv
  apply le_antisymm
  · have h1 : (a : ℚ) / b ≤ (⌈(a : ℚ) / b⌉₊ : ℚ) := Nat.le_ceil _
    have h2 : (a : ℚ) ≤ (⌈(a : ℚ) / b⌉₊ : ℚ) * b := by rwa [div_le_iff₀ hbq] at h1
    have h3 : a ≤ ⌈(a : ℚ) / b⌉₊ * b := by exact_mod_cast h2
    have h5 : a + b - 1 < ⌈(a : ℚ) / b⌉₊ * b + b := by omega
    have h4 : (⌈(a : ℚ) / b⌉₊ + 1) * b = ⌈(a : ℚ) / b⌉₊ * b + b := by ring
    have h6 := (Nat.div_lt_iff_lt_mul hb).mpr (h4 ▸ h5)
    omega
  · rw [Nat.ceil_le, div_le_iff₀ hbq]
    have e : (a + b - 1) / b * b + (a + b - 1) % b = a + b - 1 := Nat.div_add_mod' _ _
    have hr : (a + b - 1) % b < b := Nat.mod_lt _ hb
    have h6 : a ≤ (a + b - 1) / b * b := by omega
    exact_mod_cast h6

/-!
Claim theorems.
-/

/-- C1: for every request whose Authorization header is absent or empty,
the middleware rejects with status 401 and the message Access denied. No
token provided., and the account store lookup User.findById is never
reached (the reached flag of the result is false). -/
theorem c1_no_token_rejected_before_store_read
    (authHeader : Option String) (verify : String → VerifyResult)
    (findById : String → Option UserRec)
    (h : authHeader = none ∨ authHeader = some "") :
    auth authHeader verify findById =
      (.reject ⟨401, false, "Access denied. No token provided.", none⟩, false) := by
  rcases h with h | h <;> subst h <;> rfl

/-- C1 witness: concrete instantiation at an absent header. -/
theorem c1_no_token_witness :
    auth none (fun _ => VerifyResult.invalid) (fun _ => some ⟨"u1", true⟩) =
      (.reject ⟨401, false, "Access denied. No token provided.", none⟩, false) :=
  c1_no_token_rejected_before_store_read none (fun _ => VerifyResult.invalid)
    (fun _ => some ⟨"u1", true⟩) (Or.inl rfl)

/-- C2: an expired token is rejected with 401 and the distinct code
TOKEN_EXPIRED while any other verification failure carries INVALID_TOKEN,
and the client gateway maps a 401 JSON body carrying TOKEN_EXPIRED to the
re-login error message and any other 401 to the generic one. -/
theorem c2_expired_code_distinct_and_client_relogin
    (t : String) (verify : String → VerifyResult) (findById : String → Option UserRec)
    (st : ClientState) (resp : BackendResponse) :
    (verify t = .expired →
      authCheck t verify findById =
        (.reject ⟨401, false, "Token expired. Please log in again.", some "TOKEN_EXPIRED"⟩,
          false)) ∧
    (verify t = .invalid →
      authCheck t verify findById =
        (.reject ⟨401, false, "Invalid token.", some "INVALID_TOKEN"⟩, false)) ∧
    (resp.contentTypeJson = true → resp.status = 401 →
      resp.body.code = some "TOKEN_EXPIRED" →
      (requestHandle st resp).2 = .failure "Your session has expired. Please log in again.") ∧
    (resp.contentTypeJson = true → resp.status = 401 →
      resp.body.code ≠ some "TOKEN_EXPIRED" →
      (requestHandle st resp).2 = .failure "Authentication failed. Please log in again.") := by
  refine ⟨?_, ?_, ?_, ?_⟩
  · intro hv
    simp [authCheck, hv, expiredResp]
  · intro hv
    simp [authCheck, hv, invalidResp]
  · intro hj h4 hc
    unfold requestHandle
    rw [hj, h4, hc]
    simp [okStatus]
  · intro hj h4 hc
    unfold requestHandle
    rw [hj, h4]
    simp [okStatus, hc]

/-- C2 witness: concrete expired and invalid verifications, and concrete
401 bodies with and without the TOKEN_EXPIRED code. -/
theorem c2_witness :
    authCheck "tk" (fun _ => VerifyResult.expired) (fun _ => none) =
      (.reject ⟨401, false, "Token expired. Please log in again.", some "TOKEN_EXPIRED"⟩,
        false) ∧
    authCheck "tk" (fun _ => VerifyResult.invalid) (fun _ => none) =
      (.reject ⟨401, false, "Invalid token.", some "INVALID_TOKEN"⟩, false) ∧
    (requestHandle ⟨some "tk", some "tk"⟩ ⟨401, true, ⟨none, none, some "TOKEN_EXPIRED"⟩⟩).2 =
      .failure "Your session has expired. Please log in again." ∧
    (requestHandle ⟨some "tk", some "tk"⟩ ⟨401, true, ⟨none, none, some "INVALID_TOKEN"⟩⟩).2 =
      .failure "Authentication failed. Please log in again." :=
  ⟨(c2_expired_code_distinct_and_client_relogin "tk" (fun _ => VerifyResult.expired)
      (fun _ => none) ⟨some "tk", some "tk"⟩
      ⟨401, true, ⟨none, none, some "TOKEN_EXPIRED"⟩⟩).1 rfl,
   (c2_expired_code_distinct_and_client_relogin "tk" (fun _ => VerifyResult.invalid)
      (fun _ => none) ⟨some "tk", some "tk"⟩
      ⟨401, true, ⟨none, none, some "TOKEN_EXPIRED"⟩⟩).2.1 rfl,
   (c2_expired_code_distinct_and_client_relogin "tk" (fun _ => VerifyResult.invalid)
      (fun _ => none) ⟨some "tk", some "tk"⟩
      ⟨401, true, ⟨none, none, some "TOKEN_EXPIRED"⟩⟩).2.2.1 rfl rfl rfl,
   (c2_expired_code_distinct_and_client_relogin "tk" (fun _ => VerifyResult.invalid)
      (fun _ => none) ⟨some "tk", some "tk"⟩
      ⟨401, true, ⟨none, none, some "INVALID_TOKEN"⟩⟩).2.2.2 rfl rfl (by decide)⟩

/-- C3 counterexample: a present Authorization header that does not start
with the Bearer marker is not rejected; its raw value is used as the
token and here authenticates fully, contradicting the claim that the
guard rejects every non-Bearer header. -/
theorem c3_counterexample_raw_header_accepted :
    auth (some "rawtok") (fun t => if t = "rawtok" then .ok "u1" "admin" else .invalid)
      (fun i => if i = "u1" then some ⟨"u1", true⟩ else none)
      = (.accept "u1" "admin" ⟨"u1", true⟩, true) := by decide

/-- C3 amended: when the Authorization header is present, nonempty and
does not start with the Bearer marker, the middleware treats the raw
header value itself as the token and proceeds to verification with it;
it does not reject for lack of a token. -/
theorem c3_amended_non_bearer_header_used_as_token
    (h : String) (verify : String → VerifyResult) (findById : String → Option UserRec)
    (hb : strStartsWith h "Bearer " = false) (hne : h ≠ "") :
    extractToken (some h) = some h ∧
    auth (some h) verify findById = authCheck h verify findById := by
  have hx : extractToken (some h) = some h := by
    simp [extractToken, hb]
  refine ⟨hx, ?_⟩
  unfold auth
  rw [hx]
  simp [hne]

/-- C3 amendment witness: concrete non-Bearer header. -/
theorem c3_amended_witness :
    extractToken (some "rawtok") = some "rawtok" ∧
    auth (some "rawtok") (fun _ => VerifyResult.invalid) (fun _ => none)
      = authCheck "rawtok" (fun _ => VerifyResult.invalid) (fun _ => none) :=
  c3_amended_non_bearer_header_used_as_token "rawtok" (fun _ => VerifyResult.invalid)
    (fun _ => none) (by decide) (by decide)

/-- C4: a structurally valid, unexpired, correctly referencing token for
an account whose active flag is cleared is rejected with 401 and code
ACCOUNT_DEACTIVATED, and the principal is never attached. -/
theorem c4_deactivated_account_rejected
    (authHeader : Option String) (verify : String → VerifyResult)
    (findById : String → Option UserRec) (t uid role : String) (u : UserRec)
    (hx : extractToken authHeader = some t) (hne : t ≠ "")
    (hv : verify t = .ok uid role) (hf : findById uid = some u)
    (ha : u.isActive = false) :
    auth authHeader verify findById =
      (.reject ⟨401, false, "Account is deactivated.", some "ACCOUNT_DEACTIVATED"⟩, true) ∧
    (∀ uid2 role2 u2, (auth authHeader verify findById).1 ≠ .accept uid2 role2 u2) := by
  have h1 : auth authHeader verify findById =
      (.reject ⟨401, false, "Account is deactivated.", some "ACCOUNT_DEACTIVATED"⟩, true) := by
    unfold auth
    rw [hx]
    simp only [if_neg hne]
    simp [authCheck, hv, hf, ha, deactivatedResp]
  refine ⟨h1, ?_⟩
  intro uid2 role2 u2
  rw [h1]
  simp

/-- C4 witness: concrete deactivated account behind a valid Bearer token. -/
theorem c4_witness :
    auth (some "Bearer xx")
      (fun s => if s = "xx" then .ok "u1" "user" else .invalid)
      (fun i => if i = "u1" then some ⟨"u1", false⟩ else none) =
      (.reject ⟨401, false, "Account is deactivated.", some "ACCOUNT_DEACTIVATED"⟩, true) :=
  (c4_deactivated_account_rejected (some "Bearer xx")
    (fun s => if s = "xx" then .ok "u1" "user" else .invalid)
    (fun i => if i = "u1" then some ⟨"u1", false⟩ else none)
    "xx" "u1" "user" ⟨"u1", false⟩
    (by decide) (by decide) (by decide) (by decide) rfl).1

/-- C5: every template returned by the admin template listing or by the
dashboard recent-templates list has its active flag set, for every store
state and every combination of client-supplied parameters, so
soft-deleted templates never appear. -/
theorem c5_listings_return_only_active
    (store : List Template) (p : TemplateQueryParams) (t : Template) :
    (t ∈ (adminTemplatesHandler store p).1 → t.isActive = true) ∧
    (t ∈ dashboardRecentTemplates store → t.isActive = true) := by
  constructor
  · intro h
    have h1 : t ∈ sortByDesc (fun t => t.createdAt)
        (store.filter (fun t => templateMatches p t)) := mem_of_applyPage h
    have h2 := (mem_sortByDesc _ _ _).1 h1
    exact isActive_of_templateMatches p t (List.mem_filter.1 h2).2
  · intro h
    have h1 : t ∈ sortByDesc (fun t => t.createdAt)
        (store.filter (fun t => t.isActive)) := List.take_subset _ _ h
    have h2 := (mem_sortByDesc _ _ _).1 h1
    exact (List.mem_filter.1 h2).2

/-- C5 witness: one active template in the store, returned and active. -/
theorem c5_witness :
    tActive ∈ (adminTemplatesHandler [tActive] ⟨none, none, none, none, none⟩).1 ∧
    tActive.isActive = true :=
  ⟨by decide,
   (c5_listings_return_only_active [tActive] ⟨none, none, none, none, none⟩ tActive).1
     (by decide)⟩

/-- C6: for every template query and every user query with a positive
effective limit, the returned pagination metadata reports the requested
page as current, the full matching count as total, and pages equal to
the exact mathematical ceiling of total over limit. -/
theorem c6_pagination_metadata
    (tstore : List Template) (p : TemplateQueryParams)
    (ustore : List UserDoc) (q : UserQueryParams)
    (ht : 0 < effectiveLimit p.limit) (hu : 0 < effectiveLimit q.limit) :
    ((adminTemplatesHandler tstore p).2.current = defaultPage p.page ∧
     (adminTemplatesHandler tstore p).2.total =
       (tstore.filter (fun t => templateMatches p t)).length ∧
     (adminTemplatesHandler tstore p).2.pages =
       ⌈(((tstore.filter (fun t => templateMatches p t)).length : ℚ) /
          ((effectiveLimit p.limit : Nat) : ℚ))⌉₊) ∧
    ((adminUsersHandler ustore q).2.current = defaultPage q.page ∧
     (adminUsersHandler ustore q).2.total =
       (ustore.filter (fun u => userMatches q u)).length ∧
     (adminUsersHandler ustore q).2.pages =
       ⌈(((ustore.filter (fun u => userMatches q u)).length : ℚ) /
          ((effectiveLimit q.limit : Nat) : ℚ))⌉₊) := by
  refine ⟨⟨rfl, rfl, ?_⟩, ⟨rfl, rfl, ?_⟩⟩
  · exact mathCeilDiv_eq_ceil _ _ ht
  · exact mathCeilDiv_eq_ceil _ _ hu

/-- C6 witness: a store of 45 matching templates with limit 20 yields
pages 3, current 1 and total 45. -/
theorem c6_witness :
    0 < effectiveLimit (some 20) ∧
    ((adminTemplatesHandler (List.replicate 45 tActive)
        ⟨some 1, some 20, none, none, none⟩).2.pages =
      ⌈((((List.replicate 45 tActive).filter
            (fun t => templateMatches ⟨some 1, some 20, none, none, none⟩ t)).length : ℚ) /
         ((effectiveLimit (some 20) : Nat) : ℚ))⌉₊) ∧
    (adminTemplatesHandler (List.replicate 45 tActive)
        ⟨some 1, some 20, none, none, none⟩).2 = ⟨1, 3, 45⟩ :=
  ⟨by decide,
   (c6_pagination_metadata (List.replicate 45 tActive) ⟨some 1, some 20, none, none, none⟩
      [] ⟨none, none, none⟩ (by decide) (by decide)).1.2.2,
   by decide⟩

/-- C7 counterexample: the routes use the client-supplied limit
unchanged, so no fixed maximum bounds the effective page size; a request
with limit 25 already returns 25 templates, more than the default 20. -/
theorem c7_counterexample_limit_not_capped :
    effectiveLimit (some 1000) = 1000 ∧
    ((adminTemplatesHandler (List.replicate 25 tActive)
        ⟨some 1, some 25, none, none, none⟩).1).length = 25 ∧
    ¬ ∃ M : Nat, ∀ l : Option Nat, effectiveLimit l ≤ M := by
  refine ⟨rfl, by decide, ?_⟩
  rintro ⟨M, hM⟩
  have h := hM (some (M + 1))
  simp [effectiveLimit] at h

/-- C7 amended: the query engine does not cap or sanitize the
client-supplied limit; the effective page size equals the supplied value
(20 only when absent), and for every n some request returns exactly n
templates, so result sets are unbounded. -/
theorem c7_amended_limit_passed_through (n : Nat) :
    effectiveLimit (some n) = n ∧ effectiveLimit none = 20 ∧
    ∃ (store : List Template) (p : TemplateQueryParams),
      p.limit = some n ∧ ((adminTemplatesHandler store p).1).length = n := by
  refine ⟨rfl, rfl, List.replicate n tActive, ⟨some 1, some n, none, none, none⟩, rfl, ?_⟩
  have hfil : (List.replicate n tActive).filter
      (fun t => templateMatches ⟨some 1, some n, none, none, none⟩ t) =
      List.replicate n tActive := by
    apply List.filter_eq_self.mpr
    intro a ha
    have he := List.eq_of_mem_replicate ha
    subst he
    rfl
  have hlen : (sortByDesc (fun t => t.createdAt) (List.replicate n tActive)).length = n := by
    rw [length_sortByDesc, List.length_replicate]
  simp only [adminTemplatesHandler, effectiveLimit, defaultPage, Option.getD]
  rw [hfil]
  unfold applyPage
  by_cases hn : n = 0
  · subst hn
    simp at hlen
    simp [hlen]
  · simp only [if_neg hn]
    rw [List.length_take]
    simp [hlen]

/-- C8: the template stored by the admin create route is public no
matter what the request body says, including an explicit isPublic false,
and its owner is the calling admin account; name, subject and category
are taken from the body and isPremium defaults to false. -/
theorem c8_admin_create_forces_public (body : AdminCreateBody) (callerId : String) :
    (createAdminTemplateData body callerId).isPublic = true ∧
    (createAdminTemplateData body callerId).createdBy = callerId ∧
    createAdminTemplateData { body with isPublic := some false } callerId =
      createAdminTemplateData body callerId ∧
    (createAdminTemplateData body callerId).name = body.name ∧
    (createAdminTemplateData body callerId).subject = body.subject ∧
    (createAdminTemplateData body callerId).category = body.category :=
  ⟨rfl, rfl, rfl, rfl, rfl, rfl⟩

/-- C9 counterexample: a 401 response without a JSON content type makes
the gateway throw the transport error before the status check, leaving
both the in-memory token and the stored authToken in place, so not every
401 clears the stored token. -/
theorem c9_counterexample_non_json_401_keeps_token :
    requestHandle ⟨some "tok", some "tok"⟩ ⟨401, false, ⟨none, none, none⟩⟩ =
      (⟨some "tok", some "tok"⟩, .failure "Server returned invalid response format") ∧
    (⟨some "tok", some "tok"⟩ : ClientState).token = some "tok" := by decide

/-- C9 amended: for every 401 response whose content type is JSON, the
gateway clears both the in-memory token and the stored authToken entry
and raises an error. -/
theorem c9_amended_json_401_clears_token
    (st : ClientState) (resp : BackendResponse)
    (hj : resp.contentTypeJson = true) (h4 : resp.status = 401) :
    (requestHandle st resp).1.token = none ∧
    (requestHandle st resp).1.storage = none ∧
    ∃ msg, (requestHandle st resp).2 = .failure msg := by
  unfold requestHandle
  rw [hj, h4]
  by_cases hc : resp.body.code = some "TOKEN_EXPIRED" <;>
    simp [okStatus, logoutClient, hc]

/-- C9 amendment witness: concrete JSON 401 response. -/
theorem c9_witness :
    (requestHandle ⟨some "tok", some "tok"⟩ ⟨401, true, ⟨none, none, none⟩⟩).1.token = none ∧
    (requestHandle ⟨some "tok", some "tok"⟩ ⟨401, true, ⟨none, none, none⟩⟩).1.storage = none ∧
    ∃ msg, (requestHandle ⟨some "tok", some "tok"⟩ ⟨401, true, ⟨none, none, none⟩⟩).2 =
      .failure msg :=
  c9_amended_json_401_clears_token ⟨some "tok", some "tok"⟩ ⟨401, true, ⟨none, none, none⟩⟩
    rfl rfl

/-- C10: isAuthenticated is a total Boolean function of the stored token
and clock; it is false when no token is stored, and true exactly when a
nonempty token is stored whose payload segment exists and decodes to a
numeric exp with exp scaled by 1000 strictly greater than the current
time; every decoding failure (no payload segment, or a failing or
non-numeric decode, modelled by decodeExp returning none) yields false. -/
theorem c10_isAuthenticated_total_exact
    (decodeExp : String → Option Int) (token : Option String) (now : Int) :
    (token = none → isAuthenticated decodeExp token now = false) ∧
    (isAuthenticated decodeExp token now = true ↔
      ∃ t seg exp, token = some t ∧ t ≠ "" ∧ payloadSegment t = some seg ∧
        decodeExp seg = some exp ∧ exp * 1000 > now) := by
  constructor
  · intro h
    subst h
    rfl
  · cases token with
    | none => simp [isAuthenticated]
    | some t =>
      by_cases ht : t = ""
      · subst ht
        simp [isAuthenticated]
      · simp only [isAuthenticated, if_neg ht]
        cases hseg : payloadSegment t with
        | none => simp [hseg, ht]
        | some seg =>
          cases hd : decodeExp seg with
          | none => simp [hseg, hd, ht]
          | some e => simp [hseg, hd, ht]

/-- C10 witness: no stored token yields false. -/
theorem c10_witness :
    isAuthenticated (fun _ => none) none 0 = false :=
  (c10_isAuthenticated_total_exact (fun _ => none) none 0).1 rfl
